import Mathlib

/-!
Verification development for the AI PPT generator's Template Replication &
Assembly Engine.  The Python sources are shallowly embedded: every definition
below mirrors one function (or one cited fragment) of the repository, with the
file and line references given in the doc comments.  External collaborators
(the Gemini LLM, the `re` engine's extraction output, the image provider) enter
as explicit parameters, so theorems quantifying over them cover every possible
collaborator behaviour.

String handling: Python `str` values are modelled by Lean `String`, and the
Python operations `lower`, slicing, `in` (substring test) and `"\n".join` are
re-implemented structurally over the underlying character list so that they
agree with Python on the relevant inputs and evaluate inside the kernel.

Geometry: python-pptx EMU constants such as `Inches(0.7)` compute
`int(0.7 * 914400)` with binary floats; here the exact rational values are
used (e.g. 640080).  No theorem in this file depends on any geometry constant,
only on the structure of the shape lists, so the float rounding of the source
is immaterial to every claim settled here.
-/

deriving instance DecidableEq for Except

namespace PPTGen

/-- Python string `lower` (ASCII data in this code base), `str.lower()`. -/
def pyToLower (s : String) : String := String.mk (s.data.map Char.toLower)

/-- Does `needle` occur at the head of `hay`? (helper for the substring test). -/
def substrAt : List Char → List Char → Bool
  | [], _ => true
  | _ :: _, [] => false
  | a :: as, b :: bs => a == b && substrAt as bs

/-- Does `needle` occur anywhere in `hay`? (helper for the substring test). -/
def substrAny (needle : List Char) : List Char → Bool
  | [] => substrAt needle []
  | b :: bs => substrAt needle (b :: bs) || substrAny needle bs

/-- Python `needle in hay` on strings. -/
def containsSubstr (hay needle : String) : Bool := substrAny needle.data hay.data

/-- Python string slicing `s[:n]` (by code points). -/
def pyTake (s : String) (n : Nat) : String := String.mk (s.data.take n)

/-- Python `sep.join(xs)`. -/
def pyJoin (sep : String) : List String → String
  | [] => ""
  | [x] => x
  | x :: xs => x ++ sep ++ pyJoin sep xs

/-- Per-slide content record, `app/models.py` class `SlideContent`. -/
structure SlideContent where
  slide_number : Int
  title : String
  bullet_points : List String
  speaker_notes : String
  image_concept : Option String
  deriving DecidableEq, Inhabited

/-- The allocation-plan dictionary produced by `TemplateAnalyzer`
(`app/services/template_analyzer.py`): keys `strategy`, `unique_slides`,
`duplicate_slides`, `num_template_slides`. -/
structure TemplateConfig where
  strategy : String
  unique_slides : List Nat
  duplicate_slides : List Nat
  num_template_slides : Nat
  deriving DecidableEq, Inhabited

/-- `TemplateAnalyzer._get_default_strategy`
(`app/services/template_analyzer.py` lines 246-268). -/
def defaultStrategy (num_template_slides : Nat) : TemplateConfig :=
  let unique_slides : List Nat := if num_template_slides ≥ 2 then [2] else []
  let all_middle : List Nat := List.range' 2 (num_template_slides - 2)
  let duplicate_slides := all_middle.filter (fun s => decide (s ∉ unique_slides))
  let duplicate_slides := if duplicate_slides = [] then all_middle else duplicate_slides
  { strategy := "Default: Slide 2 is unique (TOC). Slides " ++ toString duplicate_slides
      ++ " can be duplicated.",
    unique_slides := unique_slides,
    duplicate_slides := duplicate_slides,
    num_template_slides := num_template_slides }

/-- The regex branch of `TemplateAnalyzer.analyze_template_instructions`
(lines 46-66): `unique_slides` is the result of `_extract_slide_numbers`
(Python's `re` engine; theorems quantify over every possible extraction
result, which is always a list of naturals).  Note the code does NOT clip
`unique_slides` to the interior slide range. -/
def regexStrategy (num_template_slides : Nat) (unique_slides : List Nat) : TemplateConfig :=
  let all_middle : List Nat := List.range' 2 (num_template_slides - 2)
  let duplicate_slides := all_middle.filter (fun s => decide (s ∉ unique_slides))
  let duplicate_slides := if duplicate_slides = [] then all_middle else duplicate_slides
  { strategy := "Slides " ++ toString unique_slides ++ " are unique (appear once). Slides "
      ++ toString duplicate_slides ++ " can be duplicated.",
    unique_slides := unique_slides,
    duplicate_slides := duplicate_slides,
    num_template_slides := num_template_slides }

/-- `TemplateAnalyzer.analyze_template_instructions` (lines 24-69).
`hasModel` is whether a Gemini model is configured; `extract` stands for
`_extract_slide_numbers`; `llm` is the outcome of the external
`_analyze_with_llm` call: `some cfg` when the LLM reply parses, `none` when
it raises (line 218-220 then falls back to the default strategy). -/
def analyzeTemplateInstructions (hasModel : Bool) (extract : String → List Nat)
    (llm : Option TemplateConfig) (num_template_slides : Nat)
    (user_instructions : String) : TemplateConfig :=
  if !hasModel || user_instructions = "" then defaultStrategy num_template_slides
  else if extract user_instructions ≠ [] then
    regexStrategy num_template_slides (extract user_instructions)
  else
    match llm with
    | some cfg => cfg
    | none => defaultStrategy num_template_slides

/-- `app/main.py generate_presentation` lines 204-219: the analyzer runs only
when `template_instructions` is truthy (present and non-empty); otherwise
`template_config` stays `None`. -/
def pipelineTemplateConfig (hasModel : Bool) (extract : String → List Nat)
    (llm : Option TemplateConfig) (num_template_slides : Nat) :
    Option String → Option TemplateConfig
  | none => none
  | some instr =>
      if instr = "" then none
      else some (analyzeTemplateInstructions hasModel extract llm num_template_slides instr)

/-- The request validation of `app/main.py generate_presentation`
(lines 139-143): `num_slides < 3` and `num_days < 1` are rejected with an
HTTP 400 before any rendering happens. -/
def validateRequest (num_slides num_days : Int) : Except String Unit :=
  if num_slides < 3 then Except.error "Minimum 3 slides required"
  else if num_days < 1 then Except.error "Minimum 1 day required"
  else Except.ok ()

/-- Lookup `fresh_template.slides[slide_num - 1]` in
`SlideRenderer.render_presentation`: cloning source slide number `s`
(1-based) of an `num_template_slides`-slide template.  An out-of-range
number raises an index error in Python; that is modelled as `Except.error`.
(The Python negative-index corner `slide_num = 0` is not exercised by any
plan considered in this file.) -/
def sourceSlideAt (num_template_slides s : Nat) : Except String Nat :=
  if 1 ≤ s ∧ s ≤ num_template_slides then Except.ok s
  else Except.error "slide index out of range"

/-- Clone each chosen source slide in order (the bodies of the two `for`
loops of `render_presentation`); the first out-of-range index aborts, as the
raised exception would. -/
def cloneSlides (num_template_slides : Nat) : List Nat → Except String (List Nat)
  | [] => Except.ok []
  | s :: rest =>
      match sourceSlideAt num_template_slides s with
      | Except.error e => Except.error e
      | Except.ok c =>
          match cloneSlides num_template_slides rest with
          | Except.error e => Except.error e
          | Except.ok cs => Except.ok (c :: cs)

/-- The duplicate-slide round-robin of `render_presentation` lines 85-96:
`for i in range(remaining): duplicate_slides[i % len(duplicate_slides)]`,
guarded by `duplicate_slides` being non-empty. -/
def dupFill (duplicate_slides : List Nat) (remaining : Nat) : List Nat :=
  if duplicate_slides.isEmpty then []
  else (List.range remaining).map fun i =>
    duplicate_slides.getD (i % duplicate_slides.length) 0

/-- `template_config.get('unique_slides', [])` of `render_presentation`
lines 48-53: the unique pool, `[]` when no config was passed. -/
def configUniqueSlides : Option TemplateConfig → List Nat
  | some c => c.unique_slides
  | none => []

/-- `template_config.get('duplicate_slides', list(range(2, num_template_slides)))`
of `render_presentation` lines 48-54: the duplicate pool, all interior slides
`2..N-1` when no config was passed. -/
def configDuplicateSlides (num_template_slides : Nat) : Option TemplateConfig → List Nat
  | some c => c.duplicate_slides
  | none => List.range' 2 (num_template_slides - 2)

/-- The slide-assembly body of `render_presentation` (lines 61-106) for given
unique/duplicate pools: cover (slide 1) ++ unique clones (in pool order, at
most `num_content_needed` of them) ++ round-robin duplicate clones ++ closing
(slide `num_template_slides`).  `num_content_needed = num_required_slides - 2`
is a Python int, hence the `Int` arithmetic (for `num_required_slides < 2`
the loops simply do not run). -/
def renderCore (num_template_slides : Nat) (unique_slides duplicate_slides : List Nat)
    (num_required_slides : Nat) : Except String (List Nat) :=
  match cloneSlides num_template_slides
      (unique_slides.take ((num_required_slides : Int) - 2).toNat) with
  | Except.error e => Except.error e
  | Except.ok uniqueClones =>
    match cloneSlides num_template_slides
        (dupFill duplicate_slides
          (((num_required_slides : Int) - 2) - (uniqueClones.length : Int)).toNat) with
    | Except.error e => Except.error e
    | Except.ok dupClones =>
        Except.ok (1 :: (uniqueClones ++ dupClones ++ [num_template_slides]))

/-- `SlideRenderer.render_presentation` (`app/services/slide_renderer.py`
lines 36-106), reduced to the sequence of source slide numbers it clones.
`num_required_slides` is `len(slides_content)`. -/
def renderSources (num_template_slides : Nat) (template_config : Option TemplateConfig)
    (num_required_slides : Nat) : Except String (List Nat) :=
  if num_template_slides < 3 then Except.error "Template must have at least 3 slides"
  else renderCore num_template_slides (configUniqueSlides template_config)
    (configDuplicateSlides num_template_slides template_config) num_required_slides

/-- Validity of an allocation plan as the spec's data-model invariant
guarantees it (sets within the slide range, duplicate pool non-empty per
planner step 3); every deterministic plan the repository's planner emits for
an `N ≥ 3` template satisfies it. -/
def PlanOk (num_template_slides : Nat) : Option TemplateConfig → Prop
  | none => True
  | some c =>
      c.duplicate_slides ≠ []
      ∧ (∀ s ∈ c.unique_slides, 1 ≤ s ∧ s ≤ num_template_slides)
      ∧ (∀ s ∈ c.duplicate_slides, 1 ≤ s ∧ s ≤ num_template_slides)

/-- `f"/ppt/slides/slide{len(sldIdLst) + 1}.xml"` in `generate_slide_partname`
(`app/utils/slide_duplicator.py` lines 35-46). -/
def basePartname (sldCount : Nat) : String :=
  "/ppt/slides/slide" ++ toString (sldCount + 1) ++ ".xml"

/-- `f"/ppt/slides/slide{random_part}{len(sldIdLst) + 1}.xml"` with the
two-letter `random_part`. -/
def suffixPartname (sldCount : Nat) (random_part : String) : String :=
  "/ppt/slides/slide" ++ random_part ++ toString (sldCount + 1) ++ ".xml"

/-- The 52 candidates of `string.ascii_letters` ('a'-'z' then 'A'-'Z'). -/
def asciiLetter (i : Fin 52) : Char :=
  if i.val < 26 then Char.ofNat (97 + i.val) else Char.ofNat (65 + (i.val - 26))

/-- A two-character `random_part`: `"".join(random.choice(string.ascii_letters)
for _ in range(2))`. -/
def letterPair (p : Fin 52 × Fin 52) : String :=
  String.mk [asciiLetter p.1, asciiLetter p.2]

/-- The `while partname_str in existing_rels` loop of
`generate_slide_partname`, with the random draws supplied by `stream` and an
explicit iteration budget `fuel`: `some name` means the loop exited with that
name within `fuel` regenerations, `none` means the loop was still running
when the budget ran out.  The source loop has no bound of its own. -/
def genPartnameLoop (existing : List String) (sldCount : Nat)
    (stream : Nat → Fin 52 × Fin 52) : Nat → Nat → String → Option String
  | 0, _, cur => if cur ∈ existing then none else some cur
  | fuel + 1, k, cur =>
      if cur ∈ existing then
        genPartnameLoop existing sldCount stream fuel (k + 1)
          (suffixPartname sldCount (letterPair (stream k)))
      else some cur

/-- `generate_slide_partname(self)`: start from the default partname and loop
while it collides with an existing relationship target. -/
def generateSlidePartname (existing : List String) (sldCount : Nat)
    (stream : Nat → Fin 52 × Fin 52) (fuel : Nat) : Option String :=
  genPartnameLoop existing sldCount stream fuel 0 (basePartname sldCount)

/-- Every partname the generator can ever produce for a given `sldCount`:
the default name plus all 52 × 52 two-letter-suffix variants. -/
def allPartnames (sldCount : Nat) : List String :=
  basePartname sldCount ::
    ((List.finRange 52) ×ˢ (List.finRange 52)).map
      (fun p => suffixPartname sldCount (letterPair p))

/-- A possible random stream that always draws "aa". -/
def streamAA : Nat → Fin 52 × Fin 52 := fun _ => (⟨0, by decide⟩, ⟨0, by decide⟩)

/-- A concrete relationship-target set already holding the default partname
and the "aa"-suffixed variant. -/
def existingTwo : List String := [basePartname 1, suffixPartname 1 "aa"]

/-- A shape on a slide.  `textFrame` is `some paragraphs` for shapes with a
`text_frame` attribute (a list of paragraph texts; python-pptx `.text` joins
them with newlines) and `none` for shapes without one.  `image` carries the
payload of picture shapes. -/
structure ShapeM where
  textFrame : Option (List String) := none
  top : Int := 0
  left : Int := 0
  width : Int := 0
  height : Int := 0
  image : Option String := none
  deriving DecidableEq, Inhabited

/-- A slide: ordered shape list plus optional notes text. -/
structure SlideM where
  shapes : List ShapeM := []
  notes : Option String := none
  deriving DecidableEq, Inhabited

/-- python-pptx `text_frame.text`: paragraph texts joined by newlines. -/
def frameText (paras : List String) : String := pyJoin "\n" paras

/-- The denylist of `SlideRenderer._remove_watermarks`
(`app/services/slide_renderer.py` lines 133-142) — the sanitizer the
pipeline actually runs.  (`WatermarkRemover.remove_watermarks` in
`app/services/watermark_remover.py` carries a slightly different list but is
never called by the pipeline.) -/
def watermarkKeywords : List String :=
  ["evaluation only", "created with aspose", "aspose.slides", "aspose pty ltd",
   "copyright", "evaluation", "aspose", "trial version"]

/-- `any(kw in shape.text_frame.text.lower() for kw in watermark_keywords)`,
`False` for shapes without a text frame (the `hasattr` guard). -/
def isWatermarkShape (sh : ShapeM) : Bool :=
  match sh.textFrame with
  | none => false
  | some paras => watermarkKeywords.any fun kw =>
      containsSubstr (pyToLower (frameText paras)) kw

/-- One slide of `SlideRenderer._remove_watermarks` (lines 146-165): collect
every matching shape, then detach each from the shape tree; retained shapes
keep their order, which is exactly a filter. -/
def removeWatermarksSlide (sl : SlideM) : SlideM :=
  { sl with shapes := sl.shapes.filter fun sh => !isWatermarkShape sh }

/-- `SlideRenderer._remove_watermarks` over the whole presentation. -/
def removeWatermarks (pres : List SlideM) : List SlideM :=
  pres.map removeWatermarksSlide

/-- A concrete vendor-marker shape. -/
def wmShape : ShapeM :=
  { textFrame := some ["Evaluation Only - Created with Aspose.Slides for Python"],
    top := 0, left := 0, width := 914400, height := 457200 }

/-- A concrete unrelated text shape. -/
def okShape : ShapeM :=
  { textFrame := some ["Quarterly roadmap"],
    top := 914400, left := 0, width := 914400, height := 457200 }

/-- Bullet truncation in `SlidePopulator._add_content_slide`
(`app/services/slide_populator.py` lines 271-275):
`bullet[:117] + "..."` when `len(bullet) > 120`. -/
def truncBullet (b : String) : String :=
  if b.length > 120 then pyTake b 117 ++ "..." else b

/-- The hard cap of lines 232-236: `bullets[:7]` when more than 7. -/
def cappedBullets (bullets : List String) : List String :=
  if bullets.length > 7 then bullets.take 7 else bullets

/-- The paragraph texts of the bullet text box after the loop of lines
265-288: the box starts with one empty paragraph; bullet 0 overwrites it and
later bullets are appended, each as `" " + bullet` after truncation. -/
def bulletParas (bullets : List String) : List String :=
  match bullets.map (fun b => " " ++ truncBullet b) with
  | [] => [""]
  | ps => ps

/-- A fetched image: pixel dimensions plus an opaque payload (stands for the
downloaded bytes). -/
structure ImgM where
  width : Int
  height : Int
  data : String
  deriving DecidableEq, Inhabited

/-- The aspect-fit-then-clamp sizing of `_add_image_strict` (lines 345-365):
fit to the reserved region by aspect ratio, then clamp the right and bottom
edges to the slide bounds.  Aspect-ratio arithmetic uses exact integer
division in place of Python float division; the dimensions play no role in
any claim below. -/
def imageFitSize (slideWidth slideHeight : Int) (img : ImgM)
    (left top max_width max_height : Int) : Int × Int :=
  let wh : Int × Int :=
    if max_width * img.height ≤ max_height * img.width then
      (max_width, max_width * img.height / img.width)
    else
      (max_height * img.width / img.height, max_height)
  let wh : Int × Int :=
    if left + wh.1 > slideWidth then
      (slideWidth - left, (slideWidth - left) * img.height / img.width)
    else wh
  if top + wh.2 > slideHeight then
    ((slideHeight - top) * img.width / img.height, slideHeight - top)
  else wh

/-- `SlidePopulator._add_image_strict` (lines 321-380).  `fetch` stands for
the stock-image search + download; `none` covers a missing URL, a failed
download and any raised exception (all swallowed). -/
def addImageStrict (slideWidth slideHeight : Int) (fetch : String → Option ImgM)
    (sl : SlideM) (prompt : String) (left top max_width max_height : Int) : SlideM :=
  match fetch prompt with
  | none => sl
  | some img =>
      if left < 0 || top < 0
          || left + (imageFitSize slideWidth slideHeight img left top max_width max_height).1
              > slideWidth
          || top + (imageFitSize slideWidth slideHeight img left top max_width max_height).2
              > slideHeight then sl
      else { sl with shapes := sl.shapes ++
        [{ textFrame := none, top := top, left := left,
           width := (imageFitSize slideWidth slideHeight img left top max_width max_height).1,
           height := (imageFitSize slideWidth slideHeight img left top max_width max_height).2,
           image := some img.data }] }

/-- The title text box of `_add_content_slide` lines 186-204 (EMU constants:
`Inches(0.7)` margin, `Inches(0.9)` top margin, `Inches(0.7)` height). -/
def contentTitleBox (slideWidth : Int) (title : String) : ShapeM :=
  { textFrame := some [title], top := 822960, left := 640080,
    width := slideWidth - 2 * 640080, height := 640080 }

/-- The bullet text box of `_add_content_slide` lines 238-288: below the
title (`content_top = margin_top + title_height + Inches(0.2)`), narrowed to
half the usable width when an image is reserved, carrying the capped and
truncated bullets as paragraphs. -/
def contentTextBox (slideWidth slideHeight : Int) (hasImage : Bool)
    (bullets : List String) : ShapeM :=
  { textFrame := some (bulletParas bullets), top := 822960 + 640080 + 182880,
    left := 640080,
    width := if hasImage then (slideWidth - 2 * 640080) * 50 / 100
      else slideWidth - 2 * 640080,
    height := slideHeight - (822960 + 640080 + 182880) - 457200 }

/-- `has_image = content.image_concept and image_source != "none"` (line 209,
Python truthiness: an absent or empty concept is falsy). -/
def hasImageFlag (image_concept : Option String) (image_source : String) : Bool :=
  (match image_concept with
    | some c => c ≠ ""
    | none => false : Bool) && image_source ≠ "none"

/-- `SlidePopulator._add_content_slide` (lines 169-305): appends a title text
box and a bullet text box (capped and truncated bullets), optionally appends
a picture, and sets the speaker notes when present.  EMU constants are the
exact values of `Inches(0.7)` etc. -/
def addContentSlide (slideWidth slideHeight : Int) (fetch : String → Option ImgM)
    (sl : SlideM) (content : SlideContent) (image_source : String) : SlideM :=
  let margin_h : Int := 640080
  let usable_width := slideWidth - 2 * margin_h
  let has_image := hasImageFlag content.image_concept image_source
  let content_top : Int := 822960 + 640080 + 182880
  let available_height := slideHeight - content_top - 457200
  let gap := usable_width * 5 / 100
  let image_left := margin_h + usable_width * 50 / 100 + gap
  let image_width :=
    if image_left + usable_width * 45 / 100 > slideWidth - margin_h then
      (slideWidth - margin_h) - image_left
    else usable_width * 45 / 100
  let withText := { sl with shapes := sl.shapes
    ++ [contentTitleBox slideWidth content.title,
        contentTextBox slideWidth slideHeight has_image (cappedBullets content.bullet_points)] }
  let withImage :=
    if has_image then
      addImageStrict slideWidth slideHeight fetch withText
        (content.image_concept.getD "") image_left content_top image_width available_height
    else withText
  if content.speaker_notes ≠ "" then { withImage with notes := some content.speaker_notes }
  else withImage

/-- Insert into an ascending list, before the first element not strictly
smaller (helper of the stable sort). -/
def sortInsert {α : Type} (le : α → α → Bool) (a : α) : List α → List α
  | [] => [a]
  | b :: bs => if le a b then a :: b :: bs else b :: sortInsert le a bs

/-- A stable ascending sort (insertion sort): for a total preorder `le` its
result coincides with Python's stable `list.sort`. -/
def stableSort {α : Type} (le : α → α → Bool) : List α → List α
  | [] => []
  | a :: as => sortInsert le a (stableSort le as)

/-- `area = shape.width * shape.height` in `_add_title_slide_content_smart`. -/
def shapeArea (sh : ShapeM) : Int := sh.width * sh.height

/-- The sort key of line 90: ascending `(top, -area)`; elements are
(original index, shape) pairs. -/
def titleOrder (a b : Nat × ShapeM) : Bool :=
  decide (a.2.top < b.2.top) ||
    (a.2.top == b.2.top && decide (shapeArea b.2 ≤ shapeArea a.2))

/-- `SlidePopulator._add_title_slide_content_smart` (lines 64-167): with at
least two text-capable shapes, write the title into the visually first one
and (when a subtitle exists) the subtitle into the second; otherwise append
fallback text boxes anchored at 35% / 52% of the slide height.
`text_frame.clear()` leaves one empty paragraph and `add_paragraph` appends,
hence the `["", ...]` frames in the placeholder branch. -/
def addTitleSlideSmart (slideWidth slideHeight : Int) (sl : SlideM)
    (content : SlideContent) : SlideM :=
  let title := content.title
  let subtitle := content.bullet_points.headD ""
  let text_shapes := sl.shapes.enum.filter fun p => p.2.textFrame.isSome
  let sorted := stableSort titleOrder text_shapes
  match sorted with
  | tfirst :: tsecond :: _ =>
      let shapes1 := sl.shapes.set tfirst.1 ({ tfirst.2 with textFrame := some ["", title] })
      let sl1 := { sl with shapes := shapes1 }
      if subtitle ≠ "" then
        let shapes2 := shapes1.set tsecond.1 ({ tsecond.2 with textFrame := some ["", subtitle] })
        { sl1 with shapes := shapes2 }
      else sl1
  | _ =>
      let margin : Int := 685800
      let title_width := slideWidth - 2 * margin
      let titleBox : ShapeM :=
        { textFrame := some [title], top := slideHeight * 35 / 100, left := margin,
          width := title_width, height := 1097280 }
      let sl1 := { sl with shapes := sl.shapes ++ [titleBox] }
      if subtitle ≠ "" then
        let subBox : ShapeM :=
          { textFrame := some [subtitle], top := slideHeight * 52 / 100, left := margin,
            width := title_width, height := 731520 }
        { sl1 with shapes := sl1.shapes ++ [subBox] }
      else sl1

/-- The per-slide branch of `SlidePopulator.populate_presentation`
(`app/services/slide_populator.py` lines 49-59): slide 0 gets the cover
treatment, slide `template_slide_count - 1` is skipped (`continue`), every
other slide gets content. -/
def populateStep (fetch : String → Option ImgM) (image_source : String)
    (slideWidth slideHeight : Int) (template_slide_count idx : Nat)
    (sl : SlideM) (content : SlideContent) : SlideM :=
  if idx = 0 then addTitleSlideSmart slideWidth slideHeight sl content
  else if idx = template_slide_count - 1 then sl
  else addContentSlide slideWidth slideHeight fetch sl content image_source

/-- The iteration of the loop of `populate_presentation`: consume the records
in order, one slide index per record, breaking out at `idx >= len(slides)`. -/
def populateLoop (fetch : String → Option ImgM) (image_source : String)
    (slideWidth slideHeight : Int) (template_slide_count : Nat) :
    Nat → List SlideM → List SlideContent → List SlideM
  | _, pres, [] => pres
  | idx, pres, content :: rest =>
      if h : idx < pres.length then
        populateLoop fetch image_source slideWidth slideHeight template_slide_count
          (idx + 1)
          (pres.set idx (populateStep fetch image_source slideWidth slideHeight
            template_slide_count idx (pres.get ⟨idx, h⟩) content)) rest
      else pres

/-- `SlidePopulator.populate_presentation` (lines 23-62):
`template_slide_count` is captured before the loop. -/
def populatePresentation (fetch : String → Option ImgM) (image_source : String)
    (slideWidth slideHeight : Int) (pres : List SlideM)
    (slides_content : List SlideContent) : List SlideM :=
  populateLoop fetch image_source slideWidth slideHeight pres.length 0 pres slides_content

/-- An image provider that never returns an image. -/
def noFetch : String → Option ImgM := fun _ => none

/-- A slide with no shapes. -/
def emptySlideM : SlideM := { shapes := [], notes := none }

/-- A concrete content record with a title and no bullets. -/
def recTitleOnly : SlideContent :=
  { slide_number := 1, title := "Intro", bullet_points := [], speaker_notes := "",
    image_concept := none }

/-- A 131-character bullet string (longer than the 120-character limit). -/
def longBullet : String :=
  "This bullet sentence is deliberately made far longer than the one hundred and twenty character limit imposed by the slide populator"

/-- A concrete record carrying ten bullets, the first of which is overlong. -/
def recTenBullets : SlideContent :=
  { slide_number := 2, title := "Agenda",
    bullet_points := [longBullet, "b2", "b3", "b4", "b5", "b6", "b7", "b8", "b9", "b10"],
    speaker_notes := "notes", image_concept := none }

set_option maxRecDepth 100000

/-- Cloning a list of in-range source slide numbers succeeds and clones them
in order. -/
theorem cloneSlides_ok (N : Nat) (l : List Nat) (h : ∀ s ∈ l, 1 ≤ s ∧ s ≤ N) :
    cloneSlides N l = Except.ok l := by
  induction l with
  | nil => rfl
  | cons a t ih =>
      have ha : 1 ≤ a ∧ a ≤ N := h a (by simp)
      have ht : cloneSlides N t = Except.ok t := ih fun s hs => h s (by simp [hs])
      have hsa : sourceSlideAt N a = Except.ok a := by simp [sourceSlideAt, ha]
      unfold cloneSlides
      rw [hsa, ht]

/-- The round-robin fill over a non-empty pool has exactly the requested
length. -/
theorem dupFill_length (d : List Nat) (r : Nat) (hd : d ≠ []) :
    (dupFill d r).length = r := by
  simp [dupFill, hd]

/-- Every slide number the round-robin fill chooses comes from the pool. -/
theorem dupFill_mem (d : List Nat) (r s : Nat) (h : s ∈ dupFill d r) : s ∈ d := by
  unfold dupFill at h
  by_cases hd : d.isEmpty
  · simp [hd] at h
  · simp only [hd, if_false, Bool.false_eq_true, List.mem_map, List.mem_range] at h
    obtain ⟨i, _, rfl⟩ := h
    have hlen : 0 < d.length := by
      cases d
      · simp at hd
      · simp
    have hmod : i % d.length < d.length := Nat.mod_lt _ hlen
    rw [List.getD_eq_getElem?_getD, List.getElem?_eq_getElem hmod]
    exact List.getElem_mem hmod

/-- Interior slide numbers `range(2, N)` are valid 1-based slide numbers. -/
theorem mem_interior_bounds (N s : Nat) (h : s ∈ List.range' 2 (N - 2)) :
    1 ≤ s ∧ s ≤ N := by
  rw [List.mem_range'] at h
  omega

/-- The interior range of an `N ≥ 3` template is non-empty. -/
theorem interior_ne_nil (N : Nat) (hN : 3 ≤ N) : List.range' 2 (N - 2) ≠ [] := by
  have hlen : (List.range' 2 (N - 2)).length = N - 2 := List.length_range' _ _ _
  intro hcontra
  rw [hcontra] at hlen
  simp at hlen
  omega

/-- Decomposing the interior range of an `N ≥ 3` template. -/
theorem range'_two_eq (N : Nat) (hN : 3 ≤ N) :
    List.range' 2 (N - 2) = 2 :: List.range' 3 (N - 3) := by
  have h : N - 2 = (N - 3) + 1 := by omega
  rw [h, List.range'_succ]

/-- Slides from 3 upward are never the default unique slide 2. -/
theorem filter_not_two_range_three (N : Nat) :
    (List.range' 3 (N - 3)).filter (fun s => decide (s ∉ ([2] : List Nat)))
      = List.range' 3 (N - 3) := by
  apply List.filter_eq_self.mpr
  intro a ha
  rw [List.mem_range'] at ha
  simp only [List.mem_singleton, decide_eq_true_eq]
  omega

/-- For templates with at least 4 slides the default strategy is
`unique = [2]`, `duplicate = [3 .. N-1]`. -/
theorem defaultStrategy_parts (N : Nat) (hN : 4 ≤ N) :
    (defaultStrategy N).unique_slides = [2]
    ∧ (defaultStrategy N).duplicate_slides = List.range' 3 (N - 3) := by
  have hfil : (List.range' 2 (N - 2)).filter (fun s => decide (s ∉ ([2] : List Nat)))
      = List.range' 3 (N - 3) := by
    rw [range'_two_eq N (by omega), List.filter_cons_of_neg (by simp)]
    exact filter_not_two_range_three N
  have hne : List.range' 3 (N - 3) ≠ [] := by
    intro hc
    have hlen := congrArg List.length hc
    simp at hlen
    omega
  constructor
  · simp only [defaultStrategy]
    rw [if_pos (show N ≥ 2 by omega)]
  · simp only [defaultStrategy]
    rw [if_pos (show N ≥ 2 by omega), hfil, if_neg hne]

/-- Every default strategy for an `N ≥ 3` template is a valid plan. -/
theorem defaultStrategy_planOk (N : Nat) (hN : 3 ≤ N) :
    PlanOk N (some (defaultStrategy N)) := by
  by_cases h4 : 4 ≤ N
  · obtain ⟨hu, hd⟩ := defaultStrategy_parts N h4
    refine ⟨?_, ?_, ?_⟩
    · rw [hd]
      intro hc
      have hlen := congrArg List.length hc
      simp at hlen
      omega
    · rw [hu]
      intro s hs
      simp at hs
      omega
    · rw [hd]
      intro s hs
      rw [List.mem_range'] at hs
      omega
  · have h3 : N = 3 := by omega
    subst h3
    exact ⟨by decide, by decide, by decide⟩

/-- The assembly body succeeds on a valid plan and produces cover ++
`R - 2` content clones ++ closing. -/
theorem renderCore_ok (N R : Nat) (u d : List Nat) (hR : 3 ≤ R)
    (hu : ∀ s ∈ u, 1 ≤ s ∧ s ≤ N) (hd : ∀ s ∈ d, 1 ≤ s ∧ s ≤ N) (hdne : d ≠ []) :
    ∃ content, renderCore N u d R = Except.ok (1 :: (content ++ [N]))
      ∧ content.length = R - 2 := by
  have h2 : ((R : Int) - 2).toNat = R - 2 := by omega
  set uu := u.take ((R : Int) - 2).toNat with huu_def
  have huu : ∀ s ∈ uu, 1 ≤ s ∧ s ≤ N := fun s hs => hu s (List.take_subset _ _ hs)
  have hclone1 : cloneSlides N uu = Except.ok uu := cloneSlides_ok N uu huu
  set r := (((R : Int) - 2) - (uu.length : Int)).toNat with hr_def
  have hfill : ∀ s ∈ dupFill d r, 1 ≤ s ∧ s ≤ N := fun s hs => hd s (dupFill_mem d r s hs)
  have hclone2 : cloneSlides N (dupFill d r) = Except.ok (dupFill d r) :=
    cloneSlides_ok N _ hfill
  have huulen : uu.length ≤ R - 2 := by
    rw [huu_def, List.length_take]
    omega
  refine ⟨uu ++ dupFill d r, ?_, ?_⟩
  · unfold renderCore
    rw [← huu_def]
    simp only [hclone1]
    rw [← hr_def]
    simp only [hclone2, List.append_assoc]
  · rw [List.length_append, dupFill_length d r hdne]
    omega

/-- C1: for every template with at least 3 slides, every required count
`R ≥ 3`, and every plan respecting the spec's plan invariant (slide numbers
within range, non-empty duplicate pool — which the renderer's default and the
analyzer's default strategy both satisfy), `render_presentation` clones
exactly `R` slides: the cover first, `R - 2` content slides, the closing
last. -/
theorem C1_replicate_exact_count :
    (∀ (N R : Nat) (cfg : Option TemplateConfig), 3 ≤ N → 3 ≤ R → PlanOk N cfg →
      ∃ content, renderSources N cfg R
          = Except.ok (1 :: (content ++ [N])) ∧ content.length = R - 2)
    ∧ (∀ N : Nat, 3 ≤ N → PlanOk N none ∧ PlanOk N (some (defaultStrategy N))) := by
  constructor
  · intro N R cfg hN hR hplan
    have hrender : renderSources N cfg R
        = renderCore N (configUniqueSlides cfg) (configDuplicateSlides N cfg) R := by
      simp [renderSources, Nat.not_lt.mpr hN]
    rw [hrender]
    cases cfg with
    | none =>
        exact renderCore_ok N R _ _ hR (by intro s hs; simp [configUniqueSlides] at hs)
          (fun s hs => mem_interior_bounds N s hs) (interior_ne_nil N hN)
    | some c =>
        obtain ⟨hdne, hu, hd⟩ := hplan
        exact renderCore_ok N R _ _ hR hu hd hdne
  · exact fun N hN => ⟨trivial, defaultStrategy_planOk N hN⟩

/-- C1 witness: a 4-slide template, 5 required slides, default config. -/
theorem C1_witness :
    (3 ≤ 4 ∧ 3 ≤ 5 ∧ PlanOk 4 none)
    ∧ (∃ content, renderSources 4 none 5
        = Except.ok (1 :: (content ++ [4])) ∧ content.length = 3) :=
  ⟨⟨by decide, by decide, trivial⟩,
    C1_replicate_exact_count.1 4 5 none (by decide) (by decide) trivial⟩

/-- C2: remaining content positions cycle through the duplicate pool in
round-robin order — position `i` uses `duplicate_slides[i % len]`; for pool
`[3, 4]` and 5 remaining slots the chosen sequence is `[3, 4, 3, 4, 3]`, and
the replicator emits exactly that sequence between cover and closing. -/
theorem C2_round_robin :
    (∀ (d : List Nat) (remaining i : Nat), d ≠ [] → i < remaining →
      (dupFill d remaining).getD i 0 = d.getD (i % d.length) 0)
    ∧ dupFill [3, 4] 5 = [3, 4, 3, 4, 3]
    ∧ renderSources 6
        (some { strategy := "Custom", unique_slides := [], duplicate_slides := [3, 4],
                num_template_slides := 6 }) 7
        = Except.ok [1, 3, 4, 3, 4, 3, 6] := by
  refine ⟨?_, by decide, by decide⟩
  intro d remaining i hd hi
  have hne : d.isEmpty = false := by
    cases d
    · simp at hd
    · simp
  simp only [dupFill, hne, Bool.false_eq_true, if_false]
  rw [List.getD_eq_getElem?_getD, List.getElem?_map, List.getElem?_range hi]
  simp

/-- C2 witness: the round-robin equation at pool `[3, 4]`, position 4 of 5. -/
theorem C2_witness :
    ([3, 4] : List Nat) ≠ [] ∧ 4 < 5
    ∧ (dupFill [3, 4] 5).getD 4 0 = ([3, 4] : List Nat).getD (4 % 2) 0 :=
  ⟨by decide, by decide, C2_round_robin.1 [3, 4] 5 4 (by decide) (by decide)⟩

/-- C3 counterexample: with no instruction text the pipeline passes NO
template config to the renderer (the analyzer is never invoked), so a 6-slide
template with 9 required slides is cloned from sources
`[1,2,3,4,5,2,3,4,6]` — slide 2 is repeated — and not from the claimed
`[1,2,3,4,5,3,4,5,6]`. -/
theorem C3_counterexample :
    renderSources 6 (pipelineTemplateConfig true (fun _ => []) none 6 none) 9
        = Except.ok [1, 2, 3, 4, 5, 2, 3, 4, 6]
    ∧ ([1, 2, 3, 4, 5, 2, 3, 4, 6] : List Nat) ≠ [1, 2, 3, 4, 5, 3, 4, 5, 6] := by
  exact ⟨by decide, by decide⟩

/-- C3 amended: the analyzer's default heuristic (which runs only when the
analyzer is invoked, i.e. when instruction text is present but unusable)
marks interior slide 2 unique and slides `3..N-1` duplicate-eligible for
`N ≥ 4`; rendering a 6-slide template with required count 9 under that
strategy yields `[1,2,3,4,5,3,4,5,6]`.  When no instruction text is supplied
at all, the pipeline skips the analyzer (config `None`) and the renderer
falls back to `unique = []`, `duplicate = [2..N-1]`. -/
theorem C3_amended_default_allocation :
    (∀ N, 4 ≤ N → (defaultStrategy N).unique_slides = [2]
      ∧ (defaultStrategy N).duplicate_slides = List.range' 3 (N - 3))
    ∧ renderSources 6 (some (defaultStrategy 6)) 9
        = Except.ok [1, 2, 3, 4, 5, 3, 4, 5, 6]
    ∧ (∀ hasModel extract llm N,
        pipelineTemplateConfig hasModel extract llm N none = none)
    ∧ (∀ N, 3 ≤ N → configUniqueSlides none = []
        ∧ configDuplicateSlides N none = List.range' 2 (N - 2)) := by
  refine ⟨fun N hN => defaultStrategy_parts N hN, by decide, fun _ _ _ _ => rfl,
    fun N _ => ⟨rfl, rfl⟩⟩

/-- C3 witness: the amended allocation at the concrete 6-slide template. -/
theorem C3_witness :
    (defaultStrategy 6).unique_slides = [2]
    ∧ (defaultStrategy 6).duplicate_slides = List.range' 3 3
    ∧ configUniqueSlides none = [] :=
  ⟨(C3_amended_default_allocation.1 6 (by decide)).1,
    (C3_amended_default_allocation.1 6 (by decide)).2,
    (C3_amended_default_allocation.2.2.2 6 (by decide)).1⟩

/-- C4 counterexample: the planner's default strategy for a 3-slide template
puts slide 2 in BOTH the unique and the duplicate set (the empty-duplicate
fallback reuses the whole interior), so the produced plan violates
`unique ∩ duplicate = ∅`. -/
theorem C4_counterexample :
    2 ∈ (defaultStrategy 3).unique_slides ∧ 2 ∈ (defaultStrategy 3).duplicate_slides := by
  exact ⟨by decide, by decide⟩

/-- C4 amended: the invariant holds for default-strategy plans of templates
with `N ≥ 4` slides (for `N = 3` the duplicate fallback makes
`unique = duplicate = [2]`); on the pattern-extraction path the extracted
`unique` list is NOT clipped to the interior range, and only the duplicate
side is guaranteed: whenever `interior − extracted` is non-empty the
duplicate set is exactly it, hence disjoint from `unique` and within
`[2, N-1]`, never containing cover or closing. -/
theorem C4_amended_plan_invariant :
    (∀ N, 4 ≤ N →
      (defaultStrategy N).unique_slides.Disjoint (defaultStrategy N).duplicate_slides
      ∧ (∀ s ∈ (defaultStrategy N).unique_slides, 2 ≤ s ∧ s ≤ N - 1)
      ∧ (∀ s ∈ (defaultStrategy N).duplicate_slides, 2 ≤ s ∧ s ≤ N - 1))
    ∧ (∀ N (extracted : List Nat),
      (List.range' 2 (N - 2)).filter (fun s => decide (s ∉ extracted)) ≠ [] →
      (regexStrategy N extracted).unique_slides.Disjoint
          (regexStrategy N extracted).duplicate_slides
      ∧ (∀ s ∈ (regexStrategy N extracted).duplicate_slides, 2 ≤ s ∧ s ≤ N - 1)) := by
  constructor
  · intro N hN
    obtain ⟨hu, hd⟩ := defaultStrategy_parts N hN
    refine ⟨?_, ?_, ?_⟩
    · rw [hu, hd]
      intro a ha
      simp at ha
      subst ha
      intro hmem
      rw [List.mem_range'] at hmem
      omega
    · rw [hu]
      intro s hs
      simp at hs
      omega
    · rw [hd]
      intro s hs
      rw [List.mem_range'] at hs
      omega
  · intro N extracted hne
    have hdup : (regexStrategy N extracted).duplicate_slides
        = (List.range' 2 (N - 2)).filter (fun s => decide (s ∉ extracted)) := by
      simp only [regexStrategy]
      rw [if_neg hne]
    have huniq : (regexStrategy N extracted).unique_slides = extracted := rfl
    constructor
    · rw [huniq, hdup]
      intro a ha hmem
      rw [List.mem_filter] at hmem
      simp at hmem
      exact hmem.2 ha
    · rw [hdup]
      intro s hs
      rw [List.mem_filter] at hs
      have := hs.1
      rw [List.mem_range'] at this
      omega

/-- C4 witness: the amended invariant at a 6-slide template with extraction
result `[3]`. -/
theorem C4_witness :
    (defaultStrategy 6).unique_slides.Disjoint (defaultStrategy 6).duplicate_slides
    ∧ (regexStrategy 6 [3]).unique_slides.Disjoint
        (regexStrategy 6 [3]).duplicate_slides :=
  ⟨(C4_amended_plan_invariant.1 6 (by decide)).1,
    (C4_amended_plan_invariant.2 6 [3] (by decide)).1⟩

/-- C5 counterexample: `render_presentation` does NOT fail for a required
count below 3 — on a 3-slide template with 2 required slides it returns a
2-slide deck (cover and closing) instead of raising anything. -/
theorem C5_counterexample :
    renderSources 3 none 2 = Except.ok [1, 3] := by decide

/-- Duplicate filling for zero remaining slots is empty regardless of the
pool. -/
theorem dupFill_zero (d : List Nat) : dupFill d 0 = [] := by
  unfold dupFill
  split <;> simp

/-- C5 amended: a required count below 3 is rejected with HTTP 400
"Minimum 3 slides required" by the endpoint before the replicator runs; the
replicator itself has no such check and, on any `N ≥ 3` template and any
config, returns just the 2-slide deck `[cover, closing]`. -/
theorem C5_amended_validation :
    (∀ num_slides num_days : Int, num_slides < 3 →
      validateRequest num_slides num_days = Except.error "Minimum 3 slides required")
    ∧ (∀ (N R : Nat) (cfg : Option TemplateConfig), 3 ≤ N → R < 3 →
      renderSources N cfg R = Except.ok [1, N]) := by
  constructor
  · intro ns nd hns
    simp [validateRequest, hns]
  · intro N R cfg hN hR
    have hrender : renderSources N cfg R
        = renderCore N (configUniqueSlides cfg) (configDuplicateSlides N cfg) R := by
      simp [renderSources, Nat.not_lt.mpr hN]
    rw [hrender]
    have h0 : ((R : Int) - 2).toNat = 0 := by omega
    have h1 : (((R : Int) - 2) - ((([] : List Nat).length : Nat) : Int)).toNat = 0 := by
      simp only [List.length_nil]
      omega
    unfold renderCore
    rw [h0]
    simp only [List.take_zero, show cloneSlides N ([] : List Nat) = Except.ok [] from rfl,
      h1, dupFill_zero, List.nil_append]

/-- C5 witness: the endpoint rejection and the replicator's 2-slide result at
the concrete request `num_slides = 2`. -/
theorem C5_witness :
    ((2 : Int) < 3 ∧ validateRequest 2 1 = Except.error "Minimum 3 slides required")
    ∧ (3 ≤ 4 ∧ 2 < 3 ∧ renderSources 4 none 2 = Except.ok [1, 4]) :=
  ⟨⟨by decide, C5_amended_validation.1 2 1 (by decide)⟩,
    ⟨by decide, by decide, C5_amended_validation.2 4 2 none (by decide) (by decide)⟩⟩

/-- Once the current candidate collides and every regenerated candidate
collides as well, the partname loop never exits, whatever the budget. -/
theorem genPartnameLoop_stuck (existing : List String) (n : Nat)
    (stream : Nat → Fin 52 × Fin 52)
    (hstep : ∀ k, suffixPartname n (letterPair (stream k)) ∈ existing) :
    ∀ fuel k cur, cur ∈ existing →
      genPartnameLoop existing n stream fuel k cur = none := by
  intro fuel
  induction fuel with
  | zero =>
      intro k cur hc
      simp [genPartnameLoop, hc]
  | succ f ih =>
      intro k cur hc
      simp only [genPartnameLoop, if_pos hc]
      exact ih (k + 1) _ (hstep k)

/-- C6 amended: identifier generation in `generate_slide_partname` is an
UNBOUNDED retry loop: it never escalates to any failure value, and whenever
every producible partname (the default one and all 52 × 52 two-letter-suffix
variants) already occurs among the existing relationship targets, the loop
runs forever — no iteration budget whatsoever makes it return. -/
theorem C6_amended_unbounded_retry :
    ∀ (sldCount fuel : Nat) (stream : Nat → Fin 52 × Fin 52),
      generateSlidePartname (allPartnames sldCount) sldCount stream fuel = none := by
  intro n fuel stream
  apply genPartnameLoop_stuck
  · intro k
    apply List.mem_cons_of_mem
    apply List.mem_map.mpr
    exact ⟨stream k, List.mem_product.mpr ⟨List.mem_finRange _, List.mem_finRange _⟩, rfl⟩
  · exact List.mem_cons_self _ _

/-- C6 counterexample: with just two existing targets (the default partname
and its "aa" variant) and the possible random draw "aa", the generator is
still looping after 40 regenerations — there is no fixed small retry cap and
no `PartialCloneFailure` escalation anywhere in its return type. -/
theorem C6_counterexample :
    generateSlidePartname existingTwo 1 streamAA 40 = none := by
  apply genPartnameLoop_stuck
  · intro k
    have haa : letterPair (streamAA k) = "aa" := by
      show letterPair ((0 : Fin 52), (0 : Fin 52)) = "aa"
      decide
    rw [haa]
    simp [existingTwo]
  · simp [existingTwo]

/-- C7: the sanitizer detaches from every slide exactly the shapes whose
lower-cased text contains a denylist entry: membership in the sanitized slide
is membership in the original minus the matchers; the concrete slide holding
the marker "Evaluation Only - Created with ..." loses that shape but keeps
the unrelated "Quarterly roadmap" shape; and a presentation with no markers
comes back unchanged. -/
theorem C7_sanitizer_exact :
    (∀ (sl : SlideM) (sh : ShapeM),
      sh ∈ (removeWatermarksSlide sl).shapes
        ↔ sh ∈ sl.shapes ∧ isWatermarkShape sh = false)
    ∧ removeWatermarks [{ shapes := [wmShape, okShape], notes := none }]
        = [{ shapes := [okShape], notes := none }]
    ∧ (∀ pres : List SlideM,
      (∀ sl ∈ pres, ∀ sh ∈ sl.shapes, isWatermarkShape sh = false) →
      removeWatermarks pres = pres) := by
  refine ⟨?_, by decide, ?_⟩
  · intro sl sh
    simp [removeWatermarksSlide, List.mem_filter]
  · intro pres h
    induction pres with
    | nil => rfl
    | cons a t ih =>
        have ha : removeWatermarksSlide a = a := by
          unfold removeWatermarksSlide
          have hfil : a.shapes.filter (fun sh => !isWatermarkShape sh) = a.shapes :=
            List.filter_eq_self.mpr fun sh hsh => by
              simp [h a (List.mem_cons_self a t) sh hsh]
          rw [hfil]
        have ht : removeWatermarks t = t :=
          ih fun sl hsl => h sl (List.mem_cons_of_mem _ hsl)
        show removeWatermarksSlide a :: removeWatermarks t = a :: t
        rw [ha, ht]

/-- C7 witness: the exact-membership law at the two-shape slide and the
no-marker no-op at a clean one-slide presentation. -/
theorem C7_witness :
    (okShape ∈ (removeWatermarksSlide { shapes := [wmShape, okShape], notes := none }).shapes
      ↔ okShape ∈ ({ shapes := [wmShape, okShape], notes := none } : SlideM).shapes
        ∧ isWatermarkShape okShape = false)
    ∧ removeWatermarks [{ shapes := [okShape], notes := none }]
        = [{ shapes := [okShape], notes := none }] :=
  ⟨C7_sanitizer_exact.1 { shapes := [wmShape, okShape], notes := none } okShape,
    C7_sanitizer_exact.2.2 [{ shapes := [okShape], notes := none }] (by decide)⟩

/-- The image step never disturbs the shapes already on the slide: it appends
at most one picture shape. -/
theorem addImageStrict_shapes (sw sh : Int) (fetch : String → Option ImgM) (sl : SlideM)
    (prompt : String) (l t mw mh : Int) :
    ∃ tail, (addImageStrict sw sh fetch sl prompt l t mw mh).shapes = sl.shapes ++ tail := by
  cases hf : fetch prompt with
  | none => exact ⟨[], by simp [addImageStrict, hf]⟩
  | some img =>
      by_cases hc : (decide (l < 0) || decide (t < 0)
          || decide (l + (imageFitSize sw sh img l t mw mh).1 > sw)
          || decide (t + (imageFitSize sw sh img l t mw mh).2 > sh)) = true
      · exact ⟨[], by simp only [addImageStrict, hf]; rw [if_pos hc]; simp⟩
      · exact ⟨[ShapeM.mk none t l (imageFitSize sw sh img l t mw mh).1
          (imageFitSize sw sh img l t mw mh).2 (some img.data)],
          by simp only [addImageStrict, hf]; rw [if_neg hc]⟩

/-- The content step appends a title box and then the bullet text box whose
paragraphs are the capped, truncated bullets. -/
theorem addContentSlide_bullet_textFrame (sw sh : Int) (fetch : String → Option ImgM)
    (sl : SlideM) (c : SlideContent) (src : String) :
    ∃ (hi : Bool) (tail : List ShapeM),
      (addContentSlide sw sh fetch sl c src).shapes
        = sl.shapes ++ contentTitleBox sw c.title
            :: contentTextBox sw sh hi (cappedBullets c.bullet_points) :: tail := by
  simp only [addContentSlide]
  split
  · split
    · obtain ⟨tail, htail⟩ := addImageStrict_shapes sw sh fetch
        { sl with shapes := sl.shapes
          ++ [contentTitleBox sw c.title,
              contentTextBox sw sh (hasImageFlag c.image_concept src)
                (cappedBullets c.bullet_points)] }
        (c.image_concept.getD "")
        (640080 + (sw - 2 * 640080) * 50 / 100 + (sw - 2 * 640080) * 5 / 100)
        (822960 + 640080 + 182880)
        (if 640080 + (sw - 2 * 640080) * 50 / 100 + (sw - 2 * 640080) * 5 / 100
              + (sw - 2 * 640080) * 45 / 100 > sw - 640080 then
            (sw - 640080) - (640080 + (sw - 2 * 640080) * 50 / 100
              + (sw - 2 * 640080) * 5 / 100)
          else (sw - 2 * 640080) * 45 / 100)
        (sh - (822960 + 640080 + 182880) - 457200)
      refine ⟨hasImageFlag c.image_concept src, tail, ?_⟩
      rw [htail]
      simp
    · exact ⟨hasImageFlag c.image_concept src, [], by simp⟩
  · split
    · obtain ⟨tail, htail⟩ := addImageStrict_shapes sw sh fetch
        { sl with shapes := sl.shapes
          ++ [contentTitleBox sw c.title,
              contentTextBox sw sh (hasImageFlag c.image_concept src)
                (cappedBullets c.bullet_points)] }
        (c.image_concept.getD "")
        (640080 + (sw - 2 * 640080) * 50 / 100 + (sw - 2 * 640080) * 5 / 100)
        (822960 + 640080 + 182880)
        (if 640080 + (sw - 2 * 640080) * 50 / 100 + (sw - 2 * 640080) * 5 / 100
              + (sw - 2 * 640080) * 45 / 100 > sw - 640080 then
            (sw - 640080) - (640080 + (sw - 2 * 640080) * 50 / 100
              + (sw - 2 * 640080) * 5 / 100)
          else (sw - 2 * 640080) * 45 / 100)
        (sh - (822960 + 640080 + 182880) - 457200)
      refine ⟨hasImageFlag c.image_concept src, tail, ?_⟩
      rw [htail]
      simp
    · exact ⟨hasImageFlag c.image_concept src, [], by simp⟩

/-- Element two places past a known prefix of an appended list. -/
theorem getD_after_prefix (A : List ShapeM) (x y : ShapeM) (tail : List ShapeM) :
    (A ++ x :: y :: tail).getD (A.length + 1) default = y := by
  rw [List.getD_eq_getElem?_getD, List.getElem?_append_right (by omega)]
  have h1 : A.length + 1 - A.length = 1 := by omega
  rw [h1]
  simp

/-- Rendered bullet paragraphs of a non-empty bullet list. -/
theorem bulletParas_of_ne_nil (bullets : List String) (h : bullets ≠ []) :
    bulletParas bullets = bullets.map (fun b => " " ++ truncBullet b) := by
  cases bullets with
  | nil => exact absurd rfl h
  | cons b bs => rfl

/-- C8: the bullet text box injected into an interior content slide carries
the capped bullet list — at most 7 entries, exactly 7 when the record has 10
bullets — and every bullet longer than the 120-character limit appears
truncated to its first 117 characters followed by the "..." ellipsis
marker. -/
theorem C8_bullet_cap_and_truncation :
    ∀ (sw sh : Int) (fetch : String → Option ImgM) (sl : SlideM) (c : SlideContent)
      (src : String),
      ((addContentSlide sw sh fetch sl c src).shapes.getD (sl.shapes.length + 1)
          default).textFrame = some (bulletParas (cappedBullets c.bullet_points))
      ∧ (cappedBullets c.bullet_points).length ≤ 7
      ∧ (c.bullet_points.length = 10 → (cappedBullets c.bullet_points).length = 7)
      ∧ (∀ (i : Nat) (b : String), c.bullet_points[i]? = some b → i < 7 →
          120 < b.length →
          (bulletParas (cappedBullets c.bullet_points))[i]?
            = some (" " ++ (pyTake b 117 ++ "..."))) := by
  intro sw sh fetch sl c src
  refine ⟨?_, ?_, ?_, ?_⟩
  · obtain ⟨hi, tail, heq⟩ := addContentSlide_bullet_textFrame sw sh fetch sl c src
    rw [heq, getD_after_prefix]
    rfl
  · unfold cappedBullets
    split
    · rw [List.length_take]
      omega
    · omega
  · intro h10
    unfold cappedBullets
    rw [if_pos (by omega), List.length_take]
    omega
  · intro i b hb hi7 hblen
    have hcap : (cappedBullets c.bullet_points)[i]? = some b := by
      unfold cappedBullets
      split
      · rw [List.getElem?_take, if_pos hi7]
        exact hb
      · exact hb
    have hlt : i < (cappedBullets c.bullet_points).length :=
      (List.getElem?_eq_some.mp hcap).1
    have hne : cappedBullets c.bullet_points ≠ [] := by
      intro hc
      rw [hc] at hlt
      simp at hlt
    rw [bulletParas_of_ne_nil _ hne, List.getElem?_map, hcap]
    simp only [Option.map_some']
    unfold truncBullet
    rw [if_pos (by omega)]

/-- C8 witness: the ten-bullet record with an overlong first bullet yields a
7-paragraph bullet box whose first paragraph ends in the ellipsis marker. -/
theorem C8_witness :
    ((addContentSlide 9144000 6858000 noFetch emptySlideM recTenBullets "none").shapes.getD 1
        default).textFrame = some (bulletParas (cappedBullets recTenBullets.bullet_points))
    ∧ (cappedBullets recTenBullets.bullet_points).length = 7
    ∧ (bulletParas (cappedBullets recTenBullets.bullet_points))[0]?
        = some (" " ++ (pyTake longBullet 117 ++ "...")) :=
  ⟨(C8_bullet_cap_and_truncation 9144000 6858000 noFetch emptySlideM recTenBullets "none").1,
    (C8_bullet_cap_and_truncation 9144000 6858000 noFetch emptySlideM recTenBullets
      "none").2.2.1 rfl,
    (C8_bullet_cap_and_truncation 9144000 6858000 noFetch emptySlideM recTenBullets
      "none").2.2.2 0 longBullet (by decide) (by decide) (by decide)⟩

/-- The populate loop never adds or removes slides. -/
theorem populateLoop_length (fetch : String → Option ImgM) (src : String)
    (sw sh : Int) (c : Nat) :
    ∀ (recs : List SlideContent) (idx : Nat) (pres : List SlideM),
      (populateLoop fetch src sw sh c idx pres recs).length = pres.length := by
  intro recs
  induction recs with
  | nil => intro idx pres; rfl
  | cons r rest ih =>
      intro idx pres
      by_cases h : idx < pres.length
      · simp only [populateLoop]
        rw [dif_pos h, ih]
        simp
      · simp only [populateLoop]
        rw [dif_neg h]

/-- The record consumed at a slide index equal to `template_slide_count - 1`
never changes that slide (the `continue` branch). -/
theorem populateStep_last (fetch : String → Option ImgM) (src : String)
    (sw sh : Int) (c : Nat) (hc : 2 ≤ c) (sl : SlideM) (r : SlideContent) :
    populateStep fetch src sw sh c (c - 1) sl r = sl := by
  have h0 : ¬ c - 1 = 0 := by omega
  simp [populateStep, h0]

/-- The closing slide (position `template_slide_count - 1`) survives the
whole loop untouched whenever the presentation has at least two slides. -/
theorem populateLoop_last_stable (fetch : String → Option ImgM) (src : String)
    (sw sh : Int) (c : Nat) (hc : 2 ≤ c) :
    ∀ (recs : List SlideContent) (idx : Nat) (pres : List SlideM), pres.length = c →
      (populateLoop fetch src sw sh c idx pres recs)[c - 1]? = pres[c - 1]? := by
  intro recs
  induction recs with
  | nil => intro idx pres hlen; rfl
  | cons r rest ih =>
      intro idx pres hlen
      by_cases h : idx < pres.length
      · simp only [populateLoop]
        rw [dif_pos h, ih (idx + 1) _ (by simp [hlen])]
        by_cases hidx : idx = c - 1
        · subst hidx
          rw [populateStep_last fetch src sw sh c hc]
          rw [List.getElem?_set_self h]
          rw [List.getElem?_eq_getElem h, List.get_eq_getElem]
        · rw [List.getElem?_set_ne hidx]
      · simp only [populateLoop]
        rw [dif_neg h]

/-- The record aimed at the closing position is ignored: replacing it does
not change the loop's result. -/
theorem populateLoop_ignore_last (fetch : String → Option ImgM) (src : String)
    (sw sh : Int) (c : Nat) (hc : 2 ≤ c) :
    ∀ (recs : List SlideContent) (idx : Nat) (pres : List SlideM)
      (r' : SlideContent), pres.length = c →
      populateLoop fetch src sw sh c idx pres (recs.set (c - 1 - idx) r')
        = populateLoop fetch src sw sh c idx pres recs := by
  intro recs
  induction recs with
  | nil => intro idx pres r' hlen; rfl
  | cons a rest ih =>
      intro idx pres r' hlen
      by_cases hk : c - 1 - idx = 0
      · rw [hk, List.set_cons_zero]
        by_cases h : idx < pres.length
        · have hidx : idx = c - 1 := by omega
          simp only [populateLoop]
          rw [dif_pos h, dif_pos h]
          subst hidx
          rw [populateStep_last fetch src sw sh c hc,
            populateStep_last fetch src sw sh c hc]
        · simp only [populateLoop]
          rw [dif_neg h, dif_neg h]
      · obtain ⟨k, hk1⟩ : ∃ k, c - 1 - idx = k + 1 := ⟨c - 1 - idx - 1, by omega⟩
        rw [hk1, List.set_cons_succ]
        by_cases h : idx < pres.length
        · simp only [populateLoop]
          rw [dif_pos h, dif_pos h]
          have hk2 : c - 1 - (idx + 1) = k := by omega
          rw [← hk2]
          exact ih (idx + 1) _ r' (by simp [hlen])
        · simp only [populateLoop]
          rw [dif_neg h, dif_neg h]

/-- Records beyond the current slide count are dead weight: the loop result
only depends on the first `len(slides) - idx` of them. -/
theorem populateLoop_take (fetch : String → Option ImgM) (src : String)
    (sw sh : Int) (c : Nat) :
    ∀ (recs : List SlideContent) (idx : Nat) (pres : List SlideM),
      populateLoop fetch src sw sh c idx pres (recs.take (pres.length - idx))
        = populateLoop fetch src sw sh c idx pres recs := by
  intro recs
  induction recs with
  | nil => intro idx pres; rw [List.take_nil]
  | cons a rest ih =>
      intro idx pres
      by_cases h : idx < pres.length
      · have hpos : pres.length - idx = (pres.length - (idx + 1)) + 1 := by omega
        rw [hpos, List.take_succ_cons]
        simp only [populateLoop]
        rw [dif_pos h, dif_pos h]
        have hi := ih (idx + 1)
          (pres.set idx (populateStep fetch src sw sh c idx (pres.get ⟨idx, h⟩) a))
        rw [List.length_set] at hi
        exact hi
      · have h0 : pres.length - idx = 0 := by omega
        rw [h0, List.take_zero]
        simp only [populateLoop]
        rw [dif_neg h]

/-- C9 counterexample: on a one-slide presentation the cover branch (index 0)
IS the last slide, and injection mutates it — here it appends a fallback
title text box, so the last slide is no longer structurally untouched. -/
theorem C9_counterexample :
    (populatePresentation noFetch "none" 9144000 6858000 [emptySlideM]
        [recTitleOnly]).getLast? ≠ some emptySlideM := by decide

/-- C9 amended: for every presentation with AT LEAST TWO slides, injection
leaves the last slide exactly as it was, and the content record addressed to
the last position is ignored — replacing it changes nothing. -/
theorem C9_amended_last_slide_untouched :
    ∀ (fetch : String → Option ImgM) (src : String) (sw sh : Int)
      (pres : List SlideM) (records : List SlideContent), 2 ≤ pres.length →
      (populatePresentation fetch src sw sh pres records).getLast? = pres.getLast?
      ∧ ∀ r', populatePresentation fetch src sw sh pres
            (records.set (pres.length - 1) r')
          = populatePresentation fetch src sw sh pres records := by
  intro fetch src sw sh pres records h2
  constructor
  · unfold populatePresentation
    rw [List.getLast?_eq_getElem?, List.getLast?_eq_getElem?,
      populateLoop_length fetch src sw sh pres.length records 0 pres]
    exact populateLoop_last_stable fetch src sw sh pres.length h2 records 0 pres rfl
  · intro r'
    unfold populatePresentation
    have h := populateLoop_ignore_last fetch src sw sh pres.length h2 records 0 pres r' rfl
    rw [Nat.sub_zero] at h
    exact h

/-- C9 witness: a two-slide presentation with one record keeps its closing
slide and ignores a replacement record at the closing position. -/
theorem C9_witness :
    2 ≤ ([emptySlideM, emptySlideM] : List SlideM).length
    ∧ (populatePresentation noFetch "none" 9144000 6858000 [emptySlideM, emptySlideM]
        [recTitleOnly]).getLast? = ([emptySlideM, emptySlideM] : List SlideM).getLast? :=
  ⟨by decide,
    (C9_amended_last_slide_untouched noFetch "none" 9144000 6858000
      [emptySlideM, emptySlideM] [recTitleOnly] (by decide)).1⟩

/-- C10: when more content records are passed than there are slides, the
injector silently ignores the surplus — the loop breaks at the slide count,
the result is identical to injecting only the first `len(slides)` records,
no new slides appear, and (the model being a total function mirroring the
loop, which raises nothing) no error is produced. -/
theorem C10_surplus_records_ignored :
    ∀ (fetch : String → Option ImgM) (src : String) (sw sh : Int)
      (pres : List SlideM) (records : List SlideContent),
      (populatePresentation fetch src sw sh pres records).length = pres.length
      ∧ populatePresentation fetch src sw sh pres records
          = populatePresentation fetch src sw sh pres (records.take pres.length) := by
  intro fetch src sw sh pres records
  constructor
  · exact populateLoop_length fetch src sw sh pres.length records 0 pres
  · unfold populatePresentation
    have h := populateLoop_take fetch src sw sh pres.length records 0 pres
    rw [Nat.sub_zero] at h
    exact h.symm

end PPTGen
